import Mathlib

/-! Verification of the black-earth gameplay core.

Shallow embedding of the gameplay logic of the `black-earth` repository
(`src/game/tank.py` and `src/game/blackearth.py`): turret aiming, tank
delegation, the circular active-tank cycle, and the projectile wiring.
Rendering calls and the pymunk integrator internals are external
collaborators and are modelled only through the state they touch.
-/

set_option maxRecDepth 100000

namespace BlackEarth

/-! ## Constants from `src/game/tank.py` (lines 14-21) -/

def TANK_SIZE : Int := 50
def TANK_TURRET_LENGTH : Int := 40
def TANK_STARTING_ANGLE_DEG : Int := 45
def TURRET_ANGLE_MAX : Int := 180
def TURRET_ANGLE_MIN : Int := 0
def TURRET_SPEED_STEP : Int := 2

/-- The key identifiers the game logic inspects: `arcade.key.LEFT`,
`arcade.key.RIGHT`, `arcade.key.SPACE`, `arcade.key.ESCAPE`; every other
key is represented by `other n`. -/
inductive Key where
  | left
  | right
  | space
  | escape
  | other (n : Nat)
deriving Repr, DecidableEq

/-! ## Turret (`src/game/tank.py`, class `Turret`) -/

/-- State of `Turret`: `turretAngleDeg` and `turretSpeed` are the mutable
fields the gameplay logic touches (`turretLength`, name, position and color
are fixed at construction and only read by rendering). -/
structure Turret where
  turretAngleDeg : Int
  turretSpeed : Int
deriving Repr, DecidableEq

/-- Embeds `Turret.__init__`: angle starts at `TANK_STARTING_ANGLE_DEG`, speed 0. -/
def Turret.init : Turret :=
  { turretAngleDeg := TANK_STARTING_ANGLE_DEG, turretSpeed := 0 }

/-- Embeds `Turret.on_key_press` (tank.py lines 118-131): two sequential `if`
statements, LEFT sets speed to `+TURRET_SPEED_STEP`, RIGHT to
`-TURRET_SPEED_STEP`. -/
def Turret.on_key_press (t : Turret) (key : Key) : Turret :=
  let t1 := if key = Key.left then { t with turretSpeed := TURRET_SPEED_STEP } else t
  if key = Key.right then { t1 with turretSpeed := -TURRET_SPEED_STEP } else t1

/-- Embeds `Turret.on_key_release` (tank.py lines 133-145): LEFT, RIGHT and SPACE
each reset the speed to 0. -/
def Turret.on_key_release (t : Turret) (key : Key) : Turret :=
  let t1 := if key = Key.left then { t with turretSpeed := 0 } else t
  let t2 := if key = Key.right then { t1 with turretSpeed := 0 } else t1
  if key = Key.space then { t2 with turretSpeed := 0 } else t2

/-- Embeds `Turret.on_update` (tank.py lines 147-156): if the speed is nonzero the
angle is incremented by it, then the angle is clamped into
`[TURRET_ANGLE_MIN, TURRET_ANGLE_MAX]` by the two-branch `if`/`elif`. -/
def Turret.on_update (t : Turret) : Turret :=
  let t1 :=
    if t.turretSpeed ≠ 0 then { t with turretAngleDeg := t.turretAngleDeg + t.turretSpeed }
    else t
  if t1.turretAngleDeg > TURRET_ANGLE_MAX then { t1 with turretAngleDeg := TURRET_ANGLE_MAX }
  else if t1.turretAngleDeg < TURRET_ANGLE_MIN then { t1 with turretAngleDeg := TURRET_ANGLE_MIN }
  else t1

/-- One interaction with a turret: a key press, a key release or a frame
update. -/
inductive TurretEvent where
  | press (k : Key)
  | release (k : Key)
  | update
deriving Repr, DecidableEq

/-- Dispatch one event to the turret. -/
def Turret.applyEvent (t : Turret) : TurretEvent → Turret
  | .press k => t.on_key_press k
  | .release k => t.on_key_release k
  | .update => t.on_update

/-- Run a sequence of events from a turret state. -/
def Turret.run (t : Turret) (evs : List TurretEvent) : Turret :=
  evs.foldl Turret.applyEvent t

/-- Iterate `on_update` k times (k frame updates with no key event). -/
def Turret.updates (t : Turret) (k : Nat) : Turret :=
  Turret.on_update^[k] t

/-- Invariant carried by every state reachable from `Turret.init`: the
angle lies in `[0, 180]`. -/
def Turret.AngleInv (t : Turret) : Prop :=
  TURRET_ANGLE_MIN ≤ t.turretAngleDeg ∧ t.turretAngleDeg ≤ TURRET_ANGLE_MAX

/-! ## Tank (`src/game/tank.py`, class `Tank`) -/

/-- The six colors of the color cycle (`tank.py` lines 26-33). -/
inductive Color where
  | red
  | blue
  | green
  | yellow
  | lavender
  | deepPink
deriving Repr, DecidableEq

/-- Modelled from the spec: `TankConfig.COLORS` lives in the `config`
module, which is not under `src/`; the spec says each tank's color is
"drawn from the color cycle", and `tank.py`'s own `TANK_COLORS` is
`itertools.cycle` over the six colors above. The endless cycle is modelled
by indexing modulo six: the i-th `next` (counting from 0) yields this. -/
def colorCycle (i : Nat) : Color :=
  [Color.red, Color.blue, Color.green, Color.yellow,
    Color.lavender, Color.deepPink].getD (i % 6) Color.red

/-- State of `Tank` (tank.py lines 43-52): name, position, color and the
owned `Turret` (`turret_obj`); `size` is a constant, only read by
rendering. Positions are exact rationals (Python floats are used only for
display here). -/
structure Tank where
  name : String
  position : ℚ × ℚ
  color : Color
  turret_obj : Turret
deriving Repr, DecidableEq

/-- Embeds `Tank.__init__`: stores the fields and instantiates the turret at the
same name/position/color, so the turret starts at `Turret.init`. -/
def Tank.init (name : String) (position : ℚ × ℚ) (color : Color) : Tank :=
  { name := name, position := position, color := color, turret_obj := Turret.init }

/-- Embeds `Tank.on_key_press` (tank.py lines 71-75): pure delegation. -/
def Tank.on_key_press (t : Tank) (key : Key) : Tank :=
  { t with turret_obj := t.turret_obj.on_key_press key }

/-- Embeds `Tank.on_key_release` (tank.py lines 77-81): pure delegation. -/
def Tank.on_key_release (t : Tank) (key : Key) : Tank :=
  { t with turret_obj := t.turret_obj.on_key_release key }

/-- Embeds `Tank.on_update` (tank.py lines 83-87): pure delegation. -/
def Tank.on_update (t : Tank) : Tank :=
  { t with turret_obj := t.turret_obj.on_update }

/-! ## Physics engine collaborator (`arcade.PymunkPhysicsEngine`)

The integrator itself is an external collaborator (out of scope per the
spec); what the gameplay core observes of it is the registry of bodies it
was handed, the registered collision handlers, and the advance of time. -/

/-- Embeds `body_type` argument of `add_sprite`: `STATIC` or the default
`DYNAMIC`. -/
inductive BodyType where
  | static
  | dynamic
deriving Repr, DecidableEq

/-- One body registered with the physics engine: the sprite it was created
from (identified by a sprite id), the keyword arguments of the
`add_sprite` call (`none` = engine default), and the impulses applied to
it so far. -/
structure PhysBody where
  sprite : Nat
  collision_type : String
  body_type : BodyType
  mass : Option ℚ
  friction : Option ℚ
  damping : Option ℚ
  impulses : List (ℚ × ℚ)
deriving Repr, DecidableEq

/-- Observable state of `arcade.PymunkPhysicsEngine`: construction
arguments, registered bodies and collision handlers, and the total time it
has been stepped by. -/
structure PymunkPhysicsEngine where
  gravity : ℚ × ℚ
  damping : ℚ
  bodies : List PhysBody
  handlers : List (String × String)
  elapsed : ℚ
deriving Repr, DecidableEq

/-- Embeds `arcade.PymunkPhysicsEngine(gravity=..., damping=...)`. -/
def PymunkPhysicsEngine.init (gravity : ℚ × ℚ) (damping : ℚ) : PymunkPhysicsEngine :=
  { gravity := gravity, damping := damping, bodies := [], handlers := [], elapsed := 0 }

/-- Embeds `physics_engine.step(delta_time)`: the integration of the registered
bodies is external; the model records only that time advanced. -/
def PymunkPhysicsEngine.step (pe : PymunkPhysicsEngine) (delta_time : ℚ) :
    PymunkPhysicsEngine :=
  { pe with elapsed := pe.elapsed + delta_time }

/-- Embeds `physics_engine.add_sprite(...)`: registers one more body. -/
def PymunkPhysicsEngine.add_sprite (pe : PymunkPhysicsEngine) (sprite : Nat)
    (collision_type : String) (body_type : BodyType)
    (mass friction damping : Option ℚ) : PymunkPhysicsEngine :=
  { pe with bodies := pe.bodies ++
      [{ sprite := sprite, collision_type := collision_type, body_type := body_type,
         mass := mass, friction := friction, damping := damping, impulses := [] }] }

/-- Embeds `physics_engine.add_collision_handler(a, b, post_handler=...)`. -/
def PymunkPhysicsEngine.add_collision_handler (pe : PymunkPhysicsEngine)
    (a b : String) : PymunkPhysicsEngine :=
  { pe with handlers := pe.handlers ++ [(a, b)] }

/-- Embeds `physics_engine.apply_impulse(sprite, vector)`: records the impulse on
the body registered for that sprite. -/
def PymunkPhysicsEngine.apply_impulse (pe : PymunkPhysicsEngine) (sprite : Nat)
    (impulse : ℚ × ℚ) : PymunkPhysicsEngine :=
  { pe with bodies := pe.bodies.map (fun b =>
      if b.sprite = sprite then { b with impulses := b.impulses ++ [impulse] } else b) }

/-! ## Projectiles -/

/-- Modelled from the spec: the projectile class is not under `src/` —
`add_bullet` receives it as an `arcade.Sprite` carrying `mass`, `friction`
and a `detonate()` method. Per the spec's data model a projectile has
mass, friction and a terminal detonation state; `sprite` is the sprite's
identity. -/
structure Bullet where
  sprite : Nat
  mass : ℚ
  friction : ℚ
  detonated : Bool
deriving Repr, DecidableEq

/-- Modelled from the spec: "Detonation: the terminal event for a
projectile on ground contact". The state change on the sprite itself is
recorded as the `detonated` flag (removal from lists is done by the
collision handler, below). -/
def Bullet.detonate (b : Bullet) : Bullet :=
  { b with detonated := true }

/-! ## Configuration (the missing `config` module) -/

/-- Modelled from the spec: `WindowConfig` comes from the `config` module,
which is not under `src/`; width and height are "externally supplied
configuration values". -/
structure WindowConfig where
  WIDTH : ℚ
  HEIGHT : ℚ
deriving Repr, DecidableEq

/-- Modelled from the spec: `PhysicsConfig` comes from the `config`
module, which is not under `src/`; gravity and damping are "externally
supplied configuration values". -/
structure PhysicsConfig where
  GRAVITY : ℚ
  DAMPING : ℚ
deriving Repr, DecidableEq

/-! ## The game (`src/game/blackearth.py`, class `BlackEarthGame`) -/

/-- Replace the element at index `i` by `f` of it (the effect, on the
tank list, of mutating the aliased `self.activeTank` object in place). -/
def updateAt : List α → Nat → (α → α) → List α
  | [], _, _ => []
  | a :: as, 0, f => f a :: as
  | a :: as, n + 1, f => a :: updateAt as n f

/-- The mutable state of `BlackEarthGame` that the gameplay core touches:
the tank list, the active tank, the bullets render list and the physics
engine. The active tank is the element of `tanksList` at `activeIdx`;
`itertools.cycle(self.tanksList)` together with `self.activeTank` is
represented by this index, since every assignment to `activeTank` takes
the next element of the cycle, i.e. moves the index one step forward
modulo the list length. -/
structure BlackEarthGame where
  tanksList : List Tank
  activeIdx : Nat
  bullets_list : List Bullet
  physics_engine : PymunkPhysicsEngine
deriving Repr, DecidableEq

/-- Embeds `self.activeTank = next(self.tanksCycle)` (blackearth.py line 98): the
cycle yields the tanks in list order and wraps around, so the active index
moves one step forward modulo the list length. -/
def BlackEarthGame.nextActive (g : BlackEarthGame) : BlackEarthGame :=
  { g with activeIdx := (g.activeIdx + 1) % g.tanksList.length }

/-- Embeds `BlackEarthGame.on_key_press` (blackearth.py lines 61-80): forwards
the event to the active tank (mutating it in place, hence the tank list
entry at the active index). -/
def BlackEarthGame.on_key_press (g : BlackEarthGame) (key : Key) : BlackEarthGame :=
  { g with tanksList := updateAt g.tanksList g.activeIdx (fun t => t.on_key_press key) }

/-- The quit path of `on_key_release` terminates the process. -/
inductive WindowSignal where
  | exited
deriving Repr, DecidableEq

/-- Embeds `BlackEarthGame.on_key_release` (blackearth.py lines 82-98): ESCAPE
quits; otherwise the event is forwarded to the (still-)active tank, and
afterwards — only for SPACE — the active tank is advanced to the next
tank of the cycle. -/
def BlackEarthGame.on_key_release (g : BlackEarthGame) (key : Key) :
    Except WindowSignal BlackEarthGame :=
  if key = Key.escape then Except.error WindowSignal.exited
  else
    let g1 : BlackEarthGame :=
      { g with tanksList := updateAt g.tanksList g.activeIdx (fun t => t.on_key_release key) }
    if key = Key.space then Except.ok g1.nextActive else Except.ok g1

/-- Embeds `BlackEarthGame.on_update` (blackearth.py lines 100-106): updates the
active tank only, then steps the physics engine by the frame's
`delta_time`. -/
def BlackEarthGame.on_update (g : BlackEarthGame) (delta_time : ℚ) : BlackEarthGame :=
  let g1 : BlackEarthGame :=
    { g with tanksList := updateAt g.tanksList g.activeIdx Tank.on_update }
  { g1 with physics_engine := g1.physics_engine.step delta_time }

/-- Embeds `BlackEarthGame.add_bullet` (blackearth.py lines 230-239): append the
bullet to the render list, register it with the physics engine with its
mass and friction, the configured damping and collision type "bullet"
(body type defaulting to dynamic), then apply the impulse `(power, 0)`. -/
def BlackEarthGame.add_bullet (cfg : PhysicsConfig) (g : BlackEarthGame)
    (bullet : Bullet) (power : ℚ) : BlackEarthGame :=
  let g1 : BlackEarthGame := { g with bullets_list := g.bullets_list ++ [bullet] }
  let g2 : BlackEarthGame := { g1 with physics_engine :=
    (g1.physics_engine.add_sprite bullet.sprite "bullet" BodyType.dynamic
      (some bullet.mass) (some bullet.friction) (some cfg.DAMPING)) }
  { g2 with physics_engine := g2.physics_engine.apply_impulse bullet.sprite (power, 0) }

/-- Embeds `bullet_ground_handler` (blackearth.py lines 188-191): on a
bullet/ground collision, call `bullet_sprite.detonate()` and then
`bullet_sprite.remove_from_sprite_lists()`, which removes the sprite from
every sprite list it belongs to — here the game's `bullets_list`. Returns
the game state together with the mutated sprite. -/
def BlackEarthGame.bullet_ground_handler (g : BlackEarthGame) (bullet_sprite : Bullet) :
    BlackEarthGame × Bullet :=
  let b := bullet_sprite.detonate
  ({ g with bullets_list := g.bullets_list.filter (fun x => x.sprite != b.sprite) }, b)

/-- Embeds `setup_physics_collisions` (blackearth.py lines 178-193): register the
ground (identified by sprite id `groundSprite`) as a static
"ground"-category body with default mass/friction/damping, and register
the ("bullet", "ground") collision handler. -/
def BlackEarthGame.setup_physics_collisions (g : BlackEarthGame) (groundSprite : Nat) :
    BlackEarthGame :=
  let g1 : BlackEarthGame := { g with physics_engine :=
    (g.physics_engine.add_sprite groundSprite "ground" BodyType.static none none none) }
  { g1 with physics_engine := g1.physics_engine.add_collision_handler "bullet" "ground" }

/-! ## `create_tanks` (blackearth.py lines 128-157) -/

/-- The exceptions relevant to setup: `TypeError` (a call with a keyword
argument the callee does not accept), `StopIteration` (calling `next` on
an exhausted iterator), and `InvalidTurnOrder` — the startup failure the
spec's error-handling section recommends; no code path raises it, it is
defined here only so statements can refer to it. -/
inductive PyError where
  | typeError
  | stopIteration
  | invalidTurnOrder
deriving Repr, DecidableEq

/-- The keyword arguments passed in the call `tank.Tank(name=...,
parent=self, position=..., color=...)` at blackearth.py lines 135-140. -/
def create_tanks_call_keywords : List String :=
  ["name", "parent", "position", "color"]

/-- The parameters accepted by `Tank.__init__` at tank.py line 43. -/
def Tank_init_parameters : List String :=
  ["name", "position", "color"]

/-- Embeds the Python call of `tank.Tank` made by `create_tanks`: the call
constructs the tank only if every keyword argument it passes names a
parameter of `Tank.__init__`; otherwise Python raises `TypeError`. -/
def Tank.call (name : String) (position : ℚ × ℚ) (color : Color) : Except PyError Tank :=
  if create_tanks_call_keywords.all (fun kw => Tank_init_parameters.contains kw) then
    Except.ok (Tank.init name position color)
  else Except.error PyError.typeError

/-- The loop `for n in range(1, num_tanks + 1)` of `create_tanks`: build
tank n named `"Player n"` at position `(WIDTH*n/(num_tanks+1), HEIGHT/3)`
with the n-th color of the cycle, and append it to the list. -/
def create_tanks_loop (w : WindowConfig) (num_tanks : Nat) :
    List Nat → List Tank → Except PyError (List Tank)
  | [], acc => Except.ok acc
  | n :: ns, acc => do
      let t ← Tank.call ("Player " ++ toString n)
        (w.WIDTH * n / ((num_tanks : ℚ) + 1), w.HEIGHT / 3) (colorCycle (n - 1))
      create_tanks_loop w num_tanks ns (acc ++ [t])

/-- Embeds `itertools.cycle(self.tanksList)` (blackearth.py line 154):
constructing the cycle object never raises, whatever the list; the cycle
is represented by the underlying list plus the position of the next
element to yield. -/
def tanksCycle_init (l : List Tank) : List Tank × Nat := (l, 0)

/-- Embeds `next` on the tanks cycle: yields the index of the current element
(wrapping) and advances the position; raises `StopIteration` if the
underlying list is empty. -/
def cycle_next (c : List Tank × Nat) : Except PyError (Nat × (List Tank × Nat)) :=
  if c.1.isEmpty then Except.error PyError.stopIteration
  else Except.ok (c.2 % c.1.length, (c.1, (c.2 + 1) % c.1.length))

/-- Embeds `create_tanks` (blackearth.py lines 128-157): run the construction
loop over `n = 1 .. num_tanks`, build the circular iterator over the
resulting list, and set the active tank by taking `next` of it. Returns
the tank list and the active index. -/
def BlackEarthGame.create_tanks (w : WindowConfig) (num_tanks : Nat) :
    Except PyError (List Tank × Nat) := do
  let tanksList ← create_tanks_loop w num_tanks (List.range' 1 num_tanks) []
  let r ← cycle_next (tanksCycle_init tanksList)
  Except.ok (tanksList, r.1)

/-- Run a list of frames: `on_update` once per frame with that frame's
`delta_time`. -/
def BlackEarthGame.runFrames (g : BlackEarthGame) (deltas : List ℚ) : BlackEarthGame :=
  deltas.foldl BlackEarthGame.on_update g

/-- A concrete two-tank game state used to instantiate the general
theorems. -/
def demoGame : BlackEarthGame :=
  { tanksList := [Tank.init "Player 1" (200, 200) Color.red,
                  Tank.init "Player 2" (400, 200) Color.blue],
    activeIdx := 0,
    bullets_list := [],
    physics_engine := PymunkPhysicsEngine.init (0, -900) 1 }

/-- A concrete physics configuration used to instantiate the general
theorems. -/
def demoPhysicsConfig : PhysicsConfig :=
  { GRAVITY := -900, DAMPING := 1 }

/-- A concrete projectile used to instantiate the general theorems. -/
def demoBullet : Bullet :=
  { sprite := 7, mass := 1, friction := 1/5, detonated := false }


/-! ## Lemmas -/

@[simp] theorem Turret.run_nil (t : Turret) : t.run [] = t := rfl

@[simp] theorem Turret.run_cons (t : Turret) (e : TurretEvent) (evs : List TurretEvent) :
    t.run (e :: evs) = (t.applyEvent e).run evs := rfl

@[simp] theorem Turret.run_append (t : Turret) (evs evs' : List TurretEvent) :
    t.run (evs ++ evs') = (t.run evs).run evs' := List.foldl_append _ _ _ _

@[simp] theorem Turret.updates_zero (t : Turret) : t.updates 0 = t := rfl

theorem Turret.updates_succ (t : Turret) (k : Nat) :
    t.updates (k + 1) = (t.on_update).updates k :=
  Function.iterate_succ_apply _ _ _

/-- Key presses never change the angle. -/
theorem Turret.angle_on_key_press (t : Turret) (k : Key) :
    (t.on_key_press k).turretAngleDeg = t.turretAngleDeg := by
  simp only [Turret.on_key_press]
  split <;> split <;> rfl

/-- Key releases never change the angle. -/
theorem Turret.angle_on_key_release (t : Turret) (k : Key) :
    (t.on_key_release k).turretAngleDeg = t.turretAngleDeg := by
  simp only [Turret.on_key_release]
  split <;> split <;> split <;> rfl

/-- After any `on_update` the angle lies in `[0, 180]`, whatever the
incoming state was: the clamp runs unconditionally. -/
theorem Turret.on_update_angle_bounds (t : Turret) :
    TURRET_ANGLE_MIN ≤ (t.on_update).turretAngleDeg ∧
      (t.on_update).turretAngleDeg ≤ TURRET_ANGLE_MAX := by
  simp only [Turret.on_update, TURRET_ANGLE_MIN, TURRET_ANGLE_MAX]
  split <;> split <;> (try split) <;> simp_all

/-- The map `on_update` is the identity on the angle when the speed is 0 and the
angle is already inside the clamp bounds. -/
theorem Turret.on_update_angle_of_speed_zero (t : Turret)
    (hs : t.turretSpeed = 0)
    (h0 : TURRET_ANGLE_MIN ≤ t.turretAngleDeg) (h1 : t.turretAngleDeg ≤ TURRET_ANGLE_MAX) :
    (t.on_update).turretAngleDeg = t.turretAngleDeg := by
  simp only [Turret.on_update, TURRET_ANGLE_MIN, TURRET_ANGLE_MAX] at *
  split <;> (try split) <;> (try split) <;> simp_all <;> omega

theorem Turret.angleInv_applyEvent (t : Turret) (h : t.AngleInv) (e : TurretEvent) :
    (t.applyEvent e).AngleInv := by
  cases e with
  | press k =>
      exact ⟨by rw [Turret.applyEvent, Turret.angle_on_key_press]; exact h.1,
             by rw [Turret.applyEvent, Turret.angle_on_key_press]; exact h.2⟩
  | release k =>
      exact ⟨by rw [Turret.applyEvent, Turret.angle_on_key_release]; exact h.1,
             by rw [Turret.applyEvent, Turret.angle_on_key_release]; exact h.2⟩
  | update => exact Turret.on_update_angle_bounds t

theorem Turret.angleInv_run (t : Turret) (h : t.AngleInv) (evs : List TurretEvent) :
    (t.run evs).AngleInv := by
  induction evs generalizing t with
  | nil => exact h
  | cons e evs ih => exact ih _ (Turret.angleInv_applyEvent t h e)

theorem Turret.init_angleInv : Turret.init.AngleInv := by
  constructor <;> decide

theorem Turret.angleInv_run_init (evs : List TurretEvent) :
    (Turret.init.run evs).AngleInv :=
  Turret.angleInv_run _ Turret.init_angleInv evs

/-- With positive speed `TURRET_SPEED_STEP = 2`, k updates drive the angle
to `min (a + 2*k) 180` (no lower clamp fires since `a ≥ 0`). -/
theorem Turret.updates_pos_speed (k : Nat) (a : Int) (h0 : 0 ≤ a) (h1 : a ≤ 180) :
    (Turret.mk a 2).updates k = Turret.mk (min (a + 2 * k) 180) 2 := by
  induction k generalizing a with
  | zero =>
      simp only [Turret.updates_zero, Turret.mk.injEq, and_true]
      omega
  | succ k ih =>
      rw [Turret.updates_succ]
      have hupd : (Turret.mk a 2).on_update = Turret.mk (min (a + 2) 180) 2 := by
        simp only [Turret.on_update, TURRET_SPEED_STEP, TURRET_ANGLE_MAX, TURRET_ANGLE_MIN]
        norm_num
        split_ifs <;> simp only [Turret.mk.injEq, and_true] <;> omega
      rw [hupd, ih _ (by omega) (by omega)]
      simp only [Turret.mk.injEq, and_true]
      push_cast
      omega

/-- With negative speed `-TURRET_SPEED_STEP = -2`, k updates drive the
angle to `max (a - 2*k) 0` (no upper clamp fires since `a ≤ 180`). -/
theorem Turret.updates_neg_speed (k : Nat) (a : Int) (h0 : 0 ≤ a) (h1 : a ≤ 180) :
    (Turret.mk a (-2)).updates k = Turret.mk (max (a - 2 * k) 0) (-2) := by
  induction k generalizing a with
  | zero =>
      simp only [Turret.updates_zero, Turret.mk.injEq, and_true]
      omega
  | succ k ih =>
      rw [Turret.updates_succ]
      have hupd : (Turret.mk a (-2)).on_update = Turret.mk (max (a - 2) 0) (-2) := by
        simp only [Turret.on_update, TURRET_SPEED_STEP, TURRET_ANGLE_MAX, TURRET_ANGLE_MIN]
        norm_num
        split_ifs <;> simp only [Turret.mk.injEq, and_true] <;> omega
      rw [hupd, ih _ (by omega) (by omega)]
      simp only [Turret.mk.injEq, and_true]
      push_cast
      omega

@[simp] theorem length_updateAt (l : List α) (i : Nat) (f : α → α) :
    (updateAt l i f).length = l.length := by
  induction l generalizing i with
  | nil => rfl
  | cons a as ih => cases i <;> simp [updateAt, ih]

theorem getElem?_updateAt_self (l : List α) (i : Nat) (f : α → α) :
    (updateAt l i f)[i]? = (l[i]?).map f := by
  induction l generalizing i with
  | nil => simp [updateAt]
  | cons a as ih => cases i <;> simp [updateAt, ih]

theorem getElem?_updateAt_ne (l : List α) (i : Nat) (f : α → α) (j : Nat)
    (h : j ≠ i) : (updateAt l i f)[j]? = l[j]? := by
  induction l generalizing i j with
  | nil => simp [updateAt]
  | cons a as ih =>
      cases i with
      | zero => cases j with
          | zero => exact absurd rfl h
          | succ j => simp [updateAt]
      | succ i => cases j with
          | zero => simp [updateAt]
          | succ j => simpa [updateAt] using ih (i := i) (j := j) (by omega)

theorem map_eq_self_of {α : Type} {l : List α} {f : α → α}
    (h : ∀ x ∈ l, f x = x) : l.map f = l := by
  induction l with
  | nil => rfl
  | cons a as ih =>
      simp only [List.map_cons, h a (List.mem_cons_self a as)]
      rw [ih (fun x hx => h x (List.mem_cons_of_mem a hx))]

theorem BlackEarthGame.iterate_nextActive (g : BlackEarthGame) (k : Nat)
    (h : g.activeIdx < g.tanksList.length) :
    (BlackEarthGame.nextActive^[k] g).tanksList = g.tanksList ∧
      (BlackEarthGame.nextActive^[k] g).activeIdx
        = (g.activeIdx + k) % g.tanksList.length := by
  induction k with
  | zero =>
      exact ⟨rfl, by simpa using (Nat.mod_eq_of_lt h).symm⟩
  | succ k ih =>
      rw [Function.iterate_succ_apply']
      obtain ⟨hl, hi⟩ := ih
      refine ⟨hl, ?_⟩
      show ((BlackEarthGame.nextActive^[k] g).activeIdx + 1)
        % (BlackEarthGame.nextActive^[k] g).tanksList.length = _
      rw [hl, hi]
      exact (Nat.mod_modEq (g.activeIdx + k) g.tanksList.length).add_right 1

/-! ## Claim theorems about the turret -/

/-- C1: for every sequence of key presses/releases interleaved with
`on_update` calls starting from the initial turret (angle 45), the angle
lies in `[0, 180]` after every `on_update` call — i.e. after any prefix of
the interaction that ends in an update. -/
theorem claim_turret_angle_always_bounded (evs : List TurretEvent) :
    TURRET_ANGLE_MIN ≤ (Turret.init.run (evs ++ [TurretEvent.update])).turretAngleDeg ∧
      (Turret.init.run (evs ++ [TurretEvent.update])).turretAngleDeg ≤ TURRET_ANGLE_MAX := by
  rw [Turret.run_append]
  exact Turret.on_update_angle_bounds _

/-- C2: from a turret at rest at angle `a ∈ [0,180]`, pressing LEFT
(aim-increase) and updating k times raises the angle by exactly
`min (k*STEP, 180 - a)`; pressing RIGHT (aim-decrease) lowers it by exactly
`min (k*STEP, a - 0)`; concretely from the initial angle 45: press LEFT and
update 10 times gives 65, then release LEFT, press RIGHT and update 50
times clamps at exactly 0. -/
theorem claim_turret_aim_step_exact (a : Int) (k : Nat)
    (h0 : TURRET_ANGLE_MIN ≤ a) (h1 : a ≤ TURRET_ANGLE_MAX) :
    (((Turret.mk a 0).on_key_press Key.left).updates k).turretAngleDeg
        = a + min (TURRET_SPEED_STEP * k) (TURRET_ANGLE_MAX - a) ∧
      (((Turret.mk a 0).on_key_press Key.right).updates k).turretAngleDeg
        = a - min (TURRET_SPEED_STEP * k) (a - TURRET_ANGLE_MIN) ∧
      ((Turret.init.on_key_press Key.left).updates 10).turretAngleDeg = 65 ∧
      (((((Turret.init.on_key_press Key.left).updates 10).on_key_release
          Key.left).on_key_press Key.right).updates 50).turretAngleDeg = 0 := by
  simp only [TURRET_ANGLE_MIN, TURRET_ANGLE_MAX] at h0 h1
  have hpress : (Turret.mk a 0).on_key_press Key.left = Turret.mk a 2 := rfl
  have hpress' : (Turret.mk a 0).on_key_press Key.right = Turret.mk a (-2) := rfl
  refine ⟨?_, ?_, by decide, by decide⟩
  · rw [hpress, Turret.updates_pos_speed k a h0 h1]
    simp only [TURRET_SPEED_STEP, TURRET_ANGLE_MAX]
    omega
  · rw [hpress', Turret.updates_neg_speed k a h0 h1]
    simp only [TURRET_SPEED_STEP, TURRET_ANGLE_MIN]
    omega

theorem claim_turret_aim_step_exact_witness :
    (TURRET_ANGLE_MIN ≤ (45 : Int) ∧ (45 : Int) ≤ TURRET_ANGLE_MAX) ∧
      ((((Turret.mk 45 0).on_key_press Key.left).updates 3).turretAngleDeg
          = 45 + min (TURRET_SPEED_STEP * 3) (TURRET_ANGLE_MAX - 45) ∧
        (((Turret.mk 45 0).on_key_press Key.right).updates 3).turretAngleDeg
          = 45 - min (TURRET_SPEED_STEP * 3) (45 - TURRET_ANGLE_MIN) ∧
        ((Turret.init.on_key_press Key.left).updates 10).turretAngleDeg = 65 ∧
        (((((Turret.init.on_key_press Key.left).updates 10).on_key_release
            Key.left).on_key_press Key.right).updates 50).turretAngleDeg = 0) :=
  ⟨⟨by decide, by decide⟩, claim_turret_aim_step_exact 45 3 (by decide) (by decide)⟩

/-- C7: in any state reachable from the initial turret, releasing LEFT,
RIGHT or SPACE sets the speed to 0, and a subsequent `on_update` then
leaves the angle unchanged. -/
theorem claim_turret_release_zeroes_speed (evs : List TurretEvent) (key : Key)
    (hk : key = Key.left ∨ key = Key.right ∨ key = Key.space) :
    ((Turret.init.run evs).on_key_release key).turretSpeed = 0 ∧
      (((Turret.init.run evs).on_key_release key).on_update).turretAngleDeg
        = ((Turret.init.run evs).on_key_release key).turretAngleDeg := by
  have hinv := Turret.angleInv_run_init evs
  have hspeed : ((Turret.init.run evs).on_key_release key).turretSpeed = 0 := by
    rcases hk with h | h | h <;> subst h <;> simp [Turret.on_key_release]
  refine ⟨hspeed, ?_⟩
  have hlo : TURRET_ANGLE_MIN ≤ ((Turret.init.run evs).on_key_release key).turretAngleDeg := by
    rw [Turret.angle_on_key_release]; exact hinv.1
  have hhi : ((Turret.init.run evs).on_key_release key).turretAngleDeg ≤ TURRET_ANGLE_MAX := by
    rw [Turret.angle_on_key_release]; exact hinv.2
  exact Turret.on_update_angle_of_speed_zero _ hspeed hlo hhi

theorem claim_turret_release_zeroes_speed_witness :
    (Key.space = Key.left ∨ Key.space = Key.right ∨ Key.space = Key.space) ∧
      (((Turret.init.run []).on_key_release Key.space).turretSpeed = 0 ∧
        (((Turret.init.run []).on_key_release Key.space).on_update).turretAngleDeg
          = ((Turret.init.run []).on_key_release Key.space).turretAngleDeg) :=
  ⟨Or.inr (Or.inr rfl),
    claim_turret_release_zeroes_speed [] Key.space (Or.inr (Or.inr rfl))⟩

/-- C10: the turret keeps no per-key held state: pressing RIGHT
(aim-decrease) while LEFT is still held overwrites the speed to `-STEP`
(last press wins), and after ANY sequence of presses, releasing LEFT,
RIGHT or SPACE resets the speed to 0. -/
theorem claim_turret_no_held_key_state (t : Turret) (presses : List Key) :
    ((t.on_key_press Key.left).on_key_press Key.right).turretSpeed = -TURRET_SPEED_STEP ∧
      ((presses.foldl Turret.on_key_press t).on_key_release Key.left).turretSpeed = 0 ∧
      ((presses.foldl Turret.on_key_press t).on_key_release Key.right).turretSpeed = 0 ∧
      ((presses.foldl Turret.on_key_press t).on_key_release Key.space).turretSpeed = 0 := by
  refine ⟨?_, ?_, ?_, ?_⟩ <;> simp [Turret.on_key_press, Turret.on_key_release]

/-! ## Claim theorems about the game -/

/-- C8: from any game state whose active index is a valid position in the
tank list (tank count N ≥ 1), advancing the active tank exactly N times
returns to the originally active tank: the tank list is untouched and the
active index is back to its starting value. -/
theorem claim_turn_cycle_period (g : BlackEarthGame)
    (h : g.activeIdx < g.tanksList.length) :
    (BlackEarthGame.nextActive^[g.tanksList.length] g).tanksList = g.tanksList ∧
      (BlackEarthGame.nextActive^[g.tanksList.length] g).activeIdx = g.activeIdx := by
  obtain ⟨hl, hi⟩ := BlackEarthGame.iterate_nextActive g g.tanksList.length h
  refine ⟨hl, ?_⟩
  rw [hi, Nat.add_mod_right, Nat.mod_eq_of_lt h]

theorem claim_turn_cycle_period_witness :
    demoGame.activeIdx < demoGame.tanksList.length ∧
      ((BlackEarthGame.nextActive^[demoGame.tanksList.length] demoGame).tanksList
          = demoGame.tanksList ∧
        (BlackEarthGame.nextActive^[demoGame.tanksList.length] demoGame).activeIdx
          = demoGame.activeIdx) :=
  ⟨by decide, claim_turn_cycle_period demoGame (by decide)⟩

/-- C6: a frame update (`on_update`) touches only the active tank: after
any number of frames, the active index is unchanged, every inactive
tank is entirely unchanged (in particular its turret angle and speed),
and the active tank has received exactly one `Tank.on_update` per
frame. -/
theorem claim_frame_update_only_active (g : BlackEarthGame) (deltas : List ℚ) :
    (g.runFrames deltas).activeIdx = g.activeIdx ∧
      (g.runFrames deltas).tanksList[g.activeIdx]?
        = (g.tanksList[g.activeIdx]?).map (Tank.on_update^[deltas.length]) ∧
      ∀ j, j ≠ g.activeIdx → (g.runFrames deltas).tanksList[j]? = g.tanksList[j]? := by
  induction deltas generalizing g with
  | nil =>
      refine ⟨rfl, ?_, fun j hj => rfl⟩
      simp [BlackEarthGame.runFrames]
  | cons d ds ih =>
      have hstep : g.runFrames (d :: ds) = (g.on_update d).runFrames ds := rfl
      obtain ⟨h1, h2, h3⟩ := ih (g.on_update d)
      have hidx : (g.on_update d).activeIdx = g.activeIdx := rfl
      rw [hstep]
      refine ⟨by rw [h1, hidx], ?_, ?_⟩
      · rw [hidx] at h2
        rw [h2]
        have hself : (g.on_update d).tanksList[g.activeIdx]?
            = (g.tanksList[g.activeIdx]?).map Tank.on_update :=
          getElem?_updateAt_self _ _ _
        rw [hself, Option.map_map, List.length_cons, Function.iterate_succ]
      · intro j hj
        rw [hidx] at h3
        rw [h3 j hj]
        exact getElem?_updateAt_ne _ _ _ _ hj

theorem claim_frame_update_only_active_witness :
    (demoGame.runFrames [1/60, 1/60, 1/60]).activeIdx = demoGame.activeIdx ∧
      (demoGame.runFrames [1/60, 1/60, 1/60]).tanksList[demoGame.activeIdx]?
        = (demoGame.tanksList[demoGame.activeIdx]?).map
            (Tank.on_update^[([1/60, 1/60, 1/60] : List ℚ).length]) ∧
      ∀ j, j ≠ demoGame.activeIdx →
        (demoGame.runFrames [1/60, 1/60, 1/60]).tanksList[j]?
          = demoGame.tanksList[j]? :=
  claim_frame_update_only_active demoGame [1/60, 1/60, 1/60]

/-- C3: releasing SPACE (fire) first forwards the release to the
still-active tank — the tank at the pre-advance index receives the
event — and only afterwards advances the active index, by exactly one
step of the circular order; a key release other than SPACE never changes
the active index (ESCAPE terminates instead of returning a state), and
no key press changes it either. -/
theorem claim_fire_release_forward_then_advance (g : BlackEarthGame) (key : Key) :
    (∃ g', g.on_key_release Key.space = Except.ok g' ∧
        g'.activeIdx = (g.activeIdx + 1) % g.tanksList.length ∧
        g'.tanksList[g.activeIdx]?
          = (g.tanksList[g.activeIdx]?).map (fun t => t.on_key_release Key.space) ∧
        ∀ j, j ≠ g.activeIdx → g'.tanksList[j]? = g.tanksList[j]?) ∧
      (key ≠ Key.space → ∀ g', g.on_key_release key = Except.ok g' →
        g'.activeIdx = g.activeIdx) ∧
      (g.on_key_press key).activeIdx = g.activeIdx := by
  refine ⟨⟨_, rfl, ?_, ?_, ?_⟩, ?_, rfl⟩
  · show (g.activeIdx + 1)
        % (updateAt g.tanksList g.activeIdx (fun t => t.on_key_release Key.space)).length
      = (g.activeIdx + 1) % g.tanksList.length
    rw [length_updateAt]
  · exact getElem?_updateAt_self _ _ _
  · intro j hj
    exact getElem?_updateAt_ne _ _ _ _ hj
  · intro hk g' hg'
    by_cases he : key = Key.escape
    · subst he
      simp [BlackEarthGame.on_key_release] at hg'
    · simp only [BlackEarthGame.on_key_release, if_neg he, if_neg hk,
        Except.ok.injEq] at hg'
      rw [← hg']

theorem claim_fire_release_forward_then_advance_witness :
    (∃ g', demoGame.on_key_release Key.space = Except.ok g' ∧
        g'.activeIdx = (demoGame.activeIdx + 1) % demoGame.tanksList.length ∧
        g'.tanksList[demoGame.activeIdx]?
          = (demoGame.tanksList[demoGame.activeIdx]?).map
              (fun t => t.on_key_release Key.space) ∧
        ∀ j, j ≠ demoGame.activeIdx → g'.tanksList[j]? = demoGame.tanksList[j]?) ∧
      (Key.left ≠ Key.space → ∀ g', demoGame.on_key_release Key.left = Except.ok g' →
        g'.activeIdx = demoGame.activeIdx) ∧
      (demoGame.on_key_press Key.left).activeIdx = demoGame.activeIdx :=
  claim_fire_release_forward_then_advance demoGame Key.left

/-- C4: adding a bullet whose sprite is not yet tracked appends it to the
render list exactly once, registers exactly one physics body for it with
collision type "bullet", the bullet's mass and friction, the configured
damping and a single impulse `(power, 0)` along the horizontal axis; the
bullet/ground collision handler then detonates the sprite and removes it
from the render list, leaving the bullet absent and the list one element
shorter than after the append. -/
theorem claim_bullet_lifecycle (cfg : PhysicsConfig) (g : BlackEarthGame)
    (b : Bullet) (power : ℚ)
    (hb : ∀ x ∈ g.bullets_list, x.sprite ≠ b.sprite)
    (hp : ∀ bd ∈ g.physics_engine.bodies, bd.sprite ≠ b.sprite) :
    (BlackEarthGame.add_bullet cfg g b power).bullets_list = g.bullets_list ++ [b] ∧
      (BlackEarthGame.add_bullet cfg g b power).physics_engine.bodies
        = g.physics_engine.bodies ++
          [{ sprite := b.sprite, collision_type := "bullet", body_type := BodyType.dynamic,
             mass := some b.mass, friction := some b.friction,
             damping := some cfg.DAMPING, impulses := [(power, 0)] }] ∧
      ((BlackEarthGame.add_bullet cfg g b power).bullet_ground_handler b).2.detonated = true ∧
      ((BlackEarthGame.add_bullet cfg g b power).bullet_ground_handler b).1.bullets_list
        = g.bullets_list ∧
      (((BlackEarthGame.add_bullet cfg g b power).bullet_ground_handler b).1.bullets_list.length
          + 1 = (BlackEarthGame.add_bullet cfg g b power).bullets_list.length) ∧
      ∀ x ∈ ((BlackEarthGame.add_bullet cfg g b power).bullet_ground_handler b).1.bullets_list,
        x.sprite ≠ b.sprite := by
  have hlist : (BlackEarthGame.add_bullet cfg g b power).bullets_list
      = g.bullets_list ++ [b] := rfl
  have hfilter : (g.bullets_list ++ [b]).filter (fun x => x.sprite != b.sprite)
      = g.bullets_list := by
    rw [List.filter_append]
    have h1 : g.bullets_list.filter (fun x => x.sprite != b.sprite) = g.bullets_list :=
      List.filter_eq_self.mpr (fun x hx => by simpa using hb x hx)
    have h2 : [b].filter (fun x => x.sprite != b.sprite) = [] := by simp
    rw [h1, h2, List.append_nil]
  have hhandler : ((BlackEarthGame.add_bullet cfg g b power).bullet_ground_handler
      b).1.bullets_list = g.bullets_list := by
    show ((g.bullets_list ++ [b]).filter (fun x => x.sprite != b.detonate.sprite))
      = g.bullets_list
    exact hfilter
  refine ⟨hlist, ?_, rfl, hhandler, ?_, ?_⟩
  · show (g.physics_engine.bodies ++
      [({ sprite := b.sprite, collision_type := "bullet", body_type := BodyType.dynamic,
          mass := some b.mass, friction := some b.friction,
          damping := some cfg.DAMPING, impulses := [] } : PhysBody)]).map
        (fun bd => if bd.sprite = b.sprite
          then { bd with impulses := bd.impulses ++ [(power, 0)] } else bd) = _
    rw [List.map_append]
    have hold : g.physics_engine.bodies.map
        (fun bd => if bd.sprite = b.sprite
          then { bd with impulses := bd.impulses ++ [(power, 0)] } else bd)
        = g.physics_engine.bodies :=
      map_eq_self_of (fun bd hbd => if_neg (hp bd hbd))
    rw [hold]
    simp
  · rw [hhandler, hlist]
    simp
  · intro x hx
    rw [hhandler] at hx
    exact hb x hx

theorem claim_bullet_lifecycle_witness :
    (∀ x ∈ demoGame.bullets_list, x.sprite ≠ demoBullet.sprite) ∧
      (∀ bd ∈ demoGame.physics_engine.bodies, bd.sprite ≠ demoBullet.sprite) ∧
      ((BlackEarthGame.add_bullet demoPhysicsConfig demoGame demoBullet 100).bullets_list
          = demoGame.bullets_list ++ [demoBullet] ∧
        (BlackEarthGame.add_bullet demoPhysicsConfig demoGame demoBullet
            100).physics_engine.bodies
          = demoGame.physics_engine.bodies ++
            [{ sprite := demoBullet.sprite, collision_type := "bullet",
               body_type := BodyType.dynamic, mass := some demoBullet.mass,
               friction := some demoBullet.friction,
               damping := some demoPhysicsConfig.DAMPING, impulses := [(100, 0)] }] ∧
        ((BlackEarthGame.add_bullet demoPhysicsConfig demoGame demoBullet
            100).bullet_ground_handler demoBullet).2.detonated = true ∧
        ((BlackEarthGame.add_bullet demoPhysicsConfig demoGame demoBullet
            100).bullet_ground_handler demoBullet).1.bullets_list
          = demoGame.bullets_list ∧
        (((BlackEarthGame.add_bullet demoPhysicsConfig demoGame demoBullet
              100).bullet_ground_handler demoBullet).1.bullets_list.length + 1
          = (BlackEarthGame.add_bullet demoPhysicsConfig demoGame demoBullet
              100).bullets_list.length) ∧
        ∀ x ∈ ((BlackEarthGame.add_bullet demoPhysicsConfig demoGame demoBullet
            100).bullet_ground_handler demoBullet).1.bullets_list,
          x.sprite ≠ demoBullet.sprite) :=
  ⟨fun x hx => by simp [demoGame] at hx,
    fun bd hbd => by simp [demoGame, PymunkPhysicsEngine.init] at hbd,
    claim_bullet_lifecycle demoPhysicsConfig demoGame demoBullet 100
      (fun x hx => by simp [demoGame] at hx)
      (fun bd hbd => by simp [demoGame, PymunkPhysicsEngine.init] at hbd)⟩

/-- C5 (the code slips): `create_tanks` calls `tank.Tank` with the keyword
argument `parent`, which `Tank.__init__` (tank.py line 43) does not
accept; for every tank count N ≥ 1 the very first tank construction
raises `TypeError`, so setup never constructs the tanks the claim
describes. -/
theorem claim_create_tanks_typeError (w : WindowConfig) (N : Nat) (hN : 1 ≤ N) :
    ("parent" ∈ create_tanks_call_keywords ∧ "parent" ∉ Tank_init_parameters) ∧
      BlackEarthGame.create_tanks w N = Except.error PyError.typeError := by
  refine ⟨⟨by decide, by decide⟩, ?_⟩
  obtain ⟨M, rfl⟩ : ∃ M, N = M + 1 := ⟨N - 1, by omega⟩
  rfl

theorem claim_create_tanks_typeError_witness :
    1 ≤ 2 ∧
      (("parent" ∈ create_tanks_call_keywords ∧ "parent" ∉ Tank_init_parameters) ∧
        BlackEarthGame.create_tanks ⟨800, 600⟩ 2 = Except.error PyError.typeError) :=
  ⟨by decide, claim_create_tanks_typeError ⟨800, 600⟩ 2 (by decide)⟩

/-- C9 (counterexample): with zero tanks, `create_tanks` does not fail
with the `InvalidTurnOrder` startup error the claim announces — no code
path raises it; the run fails with `StopIteration` instead. -/
theorem claim_empty_turn_order_counterexample :
    BlackEarthGame.create_tanks ⟨800, 600⟩ 0 ≠ Except.error PyError.invalidTurnOrder ∧
      BlackEarthGame.create_tanks ⟨800, 600⟩ 0 = Except.error PyError.stopIteration := by
  have h : BlackEarthGame.create_tanks ⟨800, 600⟩ 0
      = Except.error PyError.stopIteration := rfl
  refine ⟨?_, h⟩
  rw [h]
  intro hc
  exact absurd (Except.error.inj hc) (by decide)

/-- C9 (amended): constructing the cycle from the empty tank list is not
rejected at construction time; `itertools.cycle([])` succeeds, and the
failure only surfaces as `StopIteration` when the first active tank is
taken from the cycle, so `create_tanks` with zero tanks fails with
`StopIteration`, never yielding a cursor. -/
theorem claim_empty_turn_order_amended (w : WindowConfig) :
    tanksCycle_init [] = ([], 0) ∧
      cycle_next (tanksCycle_init []) = Except.error PyError.stopIteration ∧
      BlackEarthGame.create_tanks w 0 = Except.error PyError.stopIteration :=
  ⟨rfl, rfl, rfl⟩

end BlackEarth
